import Mathlib

/-!
Verification development for the CSV-to-Notion task uploader
(`notion_task_uploader.py`).

The program is embedded shallowly:

* Python `dict`s over string keys become association lists
  (`List (String × α)`) with insertion-order-preserving assignment
  (`dictInsert`) and first-match lookup (`dictGet?`), matching CPython
  dict semantics for the operations the program uses.
* The column-renaming loop, the Category fallback, the properties
  conversion, the paginated index build, the CSV collection loop and
  the per-task upload loop are each translated into executable Lean
  functions mirroring the corresponding Python code.
* Remote I/O is determinized: the paginated query is modelled by the
  list of responses the server returns in order, and each per-task
  create/update call carries a Boolean telling whether the transport
  call raises.
-/

namespace NotionUploader

/-- Lookup in a Python dict modelled as an association list:
first (and only, by `dictInsert`'s invariant) matching key. -/
def dictGet? {α : Type} : List (String × α) → String → Option α
  | [], _ => none
  | (k', v') :: rest, k => if k' = k then some v' else dictGet? rest k

/-- Python `d.get(k, default)`. -/
def dictGetD {α : Type} (t : List (String × α)) (k : String) (d : α) : α :=
  (dictGet? t k).getD d

/-- Python `k in d`. -/
def dictHas {α : Type} (t : List (String × α)) (k : String) : Bool :=
  (dictGet? t k).isSome

/-- Python dict assignment `d[k] = v`: replaces the value in place if
the key is present (keeping its position), otherwise appends. -/
def dictInsert {α : Type} : List (String × α) → String → α → List (String × α)
  | [], k, v => [(k, v)]
  | (k', v') :: rest, k, v =>
      if k' = k then (k, v) :: rest else (k', v') :: dictInsert rest k v

@[simp]
theorem dictGet?_insert_self {α : Type} (t : List (String × α)) (k : String) (v : α) :
    dictGet? (dictInsert t k v) k = some v := by
  induction t with
  | nil => simp [dictInsert, dictGet?]
  | cons hd tl ih =>
      obtain ⟨k', v'⟩ := hd
      by_cases h : k' = k <;> simp [dictInsert, dictGet?, h, ih]

theorem dictGet?_insert_ne {α : Type} (t : List (String × α)) {k K : String} (v : α)
    (h : k ≠ K) : dictGet? (dictInsert t k v) K = dictGet? t K := by
  induction t with
  | nil => simp [dictInsert, dictGet?, h]
  | cons hd tl ih =>
      obtain ⟨k', v'⟩ := hd
      by_cases hk : k' = k
      · subst hk
        simp [dictInsert, dictGet?, h]
      · simp [dictInsert, dictGet?, hk, ih]

/-- The static column-name translation table `COLUMN_MAPPING`. -/
def COLUMN_MAPPING : List (String × String) :=
  [("Week/Milestone", "Sprint"),
   ("Task Name", "Category"),
   ("Description", "Task Description"),
   ("Assigned LLM Tools", "Tools/APIs Required"),
   ("Files Created", "API/Tokens Required"),
   ("Dependencies", "Dependencies"),
   ("Enhancements", "Notes/Comments"),
   ("Acceptance Criteria", "Notes/Comments"),
   ("Status", "Status"),
   ("Priority", "Priority"),
   ("Due Date", "Due Date"),
   ("Estimated Effort", "Estimated Effort")]

/-- The key a field of a raw row is stored under after the renaming
loop: its canonical name when the table knows it, else itself. -/
def targetKey (k : String) : String :=
  (dictGet? COLUMN_MAPPING k).getD k

/-- One iteration of the renaming loop (`for old_key, value in row.items()`):
rename through `COLUMN_MAPPING` when possible, with the Notes/Comments
append rule; keep the original key otherwise. -/
def renameStep (task : List (String × String)) (kv : String × String) :
    List (String × String) :=
  match dictGet? COLUMN_MAPPING kv.1 with
  | some new_key =>
      if new_key = "Notes/Comments" ∧ dictHas task new_key ∧ kv.2 ≠ "" then
        dictInsert task new_key (dictGetD task new_key "" ++ " | " ++ kv.2)
      else
        dictInsert task new_key kv.2
  | none => dictInsert task kv.1 kv.2

/-- The full renaming loop over one CSV row. -/
def renameRow (row : List (String × String)) : List (String × String) :=
  row.foldl renameStep []

/-- The fallback `if "Category" not in task and "Task Name" in task: task["Category"] = task["Task Name"]`. -/
def deriveCategory (task : List (String × String)) : List (String × String) :=
  if ¬ dictHas task "Category" ∧ dictHas task "Task Name" then
    dictInsert task "Category" (dictGetD task "Task Name" "")
  else task

/-- Normalization of one raw CSV row into a standardized task record. -/
def normalizeRow (row : List (String × String)) : List (String × String) :=
  deriveCategory (renameRow row)

theorem renameStep_eq_insert_targetKey (task : List (String × String))
    (kv : String × String) :
    ∃ v, renameStep task kv = dictInsert task (targetKey kv.1) v := by
  unfold renameStep targetKey
  cases h : dictGet? COLUMN_MAPPING kv.1 with
  | none => exact ⟨kv.2, by simp⟩
  | some nk =>
      simp only [Option.getD_some]
      split
      · exact ⟨_, rfl⟩
      · exact ⟨kv.2, rfl⟩

theorem dictGet?_renameStep_ne (task : List (String × String))
    (kv : String × String) {K : String} (h : targetKey kv.1 ≠ K) :
    dictGet? (renameStep task kv) K = dictGet? task K := by
  obtain ⟨v, hv⟩ := renameStep_eq_insert_targetKey task kv
  rw [hv, dictGet?_insert_ne _ _ h]

theorem dictGet?_foldl_renameStep_ne (row : List (String × String))
    {K : String} (h : ∀ kv ∈ row, targetKey kv.1 ≠ K) :
    ∀ task, dictGet? (row.foldl renameStep task) K = dictGet? task K := by
  induction row with
  | nil => intro task; rfl
  | cons hd tl ih =>
      intro task
      rw [List.foldl_cons, ih (fun kv hkv => h kv (List.mem_cons_of_mem _ hkv)),
        dictGet?_renameStep_ne _ _ (h hd (List.mem_cons_self _ _))]

theorem dictGet?_deriveCategory_ne (task : List (String × String))
    {K : String} (h : K ≠ "Category") :
    dictGet? (deriveCategory task) K = dictGet? task K := by
  unfold deriveCategory
  split
  · rw [dictGet?_insert_ne _ _ (Ne.symm h)]
  · rfl

/-! ### Conversion to Notion properties (`_convert_to_notion_properties`) -/

/-- A value of the Notion properties map produced by the converter. -/
inductive NotionValue : Type
  | title (content : String)
  | richText (content : String)
  | select (name : String)
  | date (start : String)
deriving DecidableEq, Repr

/-- Gregorian leap year, as the `datetime` library computes it. -/
def isLeapYear (y : Nat) : Bool :=
  (y % 4 == 0 && y % 100 != 0) || y % 400 == 0

/-- Days in a month, as validated by `datetime`'s constructor. -/
def daysInMonth (y m : Nat) : Nat :=
  if m = 2 then (if isLeapYear y then 29 else 28)
  else if m = 4 ∨ m = 6 ∨ m = 9 ∨ m = 11 then 30
  else 31

/-- Split a character list on `'/'` (the groups between the slashes,
including empty ones). -/
def splitSlashes : List Char → List (List Char)
  | [] => [[]]
  | c :: rest =>
      match splitSlashes rest with
      | [] => if c = '/' then [[], []] else [[c]]
      | g :: gs => if c = '/' then [] :: g :: gs else (c :: g) :: gs

/-- Read a group of decimal digits as a number; `none` when a
character is not a digit. -/
def digitsToNat? (cs : List Char) : Option Nat :=
  if cs.all (fun c => c.isDigit) then
    some (cs.foldl (fun n c => 10 * n + (c.toNat - 48)) 0)
  else none

/-- Model of `datetime.strptime(s, "%m/%d/%Y")`: one or two digits of month, a
slash, one or two digits of day, a slash, exactly four digits of year,
nothing else; the resulting date must exist in the Gregorian calendar.
Returns `some (month, day, year)` or `none` (a raised `ValueError`). -/
def parseMDY (s : String) : Option (Nat × Nat × Nat) :=
  match splitSlashes s.data with
  | [ms, ds, ys] =>
      match digitsToNat? ms, digitsToNat? ds, digitsToNat? ys with
      | some m, some d, some y =>
          if 1 ≤ ms.length ∧ ms.length ≤ 2 ∧ 1 ≤ ds.length ∧ ds.length ≤ 2 ∧
              ys.length = 4 ∧ 1 ≤ m ∧ m ≤ 12 ∧ 1 ≤ y ∧
              1 ≤ d ∧ d ≤ daysInMonth y m then
            some (m, d, y)
          else none
      | _, _, _ => none
  | _ => none

/-- The decimal digit character of `n % 10`. -/
def digitStr (n : Nat) : String :=
  String.mk [Char.ofNat (48 + n % 10)]

/-- Zero-pad a number below 100 to two digits (`strftime` `%m`, `%d`). -/
def pad2 (n : Nat) : String :=
  digitStr (n / 10) ++ digitStr n

/-- Zero-pad a number below 10000 to four digits (`strftime` `%Y`;
zero-padding of years below 1000 is platform-dependent in CPython, and
`parseMDY` only produces years written with four digits). -/
def pad4 (n : Nat) : String :=
  digitStr (n / 1000) ++ digitStr (n / 100) ++ digitStr (n / 10) ++ digitStr n

/-- Model of `dt.strftime("%Y-%m-%d")` for a parsed (month, day, year). -/
def formatYMD (mdy : Nat × Nat × Nat) : String :=
  pad4 mdy.2.2 ++ "-" ++ pad2 mdy.1 ++ "-" ++ pad2 mdy.2.1

/-- Python `"-" in s` for the one-character needle the code uses. -/
def containsDash (s : String) : Bool :=
  s.data.any (fun c => c = '-')

/-- The step `if value: properties[key] = \x7b"rich_text": ...\x7d`. -/
def addRichTextIf (props : List (String × NotionValue)) (key v : String) :
    List (String × NotionValue) :=
  if v ≠ "" then dictInsert props key (NotionValue.richText v) else props

/-- The step `if value: properties[key] = \x7b"select": ...\x7d`. -/
def addSelectIf (props : List (String × NotionValue)) (key v : String) :
    List (String × NotionValue) :=
  if v ≠ "" then dictInsert props key (NotionValue.select v) else props

/-- The Due Date block: a non-empty value without a literal `-` is run
through `strptime`/`strftime` (a parse failure adds nothing); a
non-empty value containing `-` is stored as is. -/
def addDueDate (props : List (String × NotionValue)) (due : String) :
    List (String × NotionValue) :=
  if due ≠ "" then
    if ¬ containsDash due then
      match parseMDY due with
      | some mdy => dictInsert props "Due Date" (NotionValue.date (formatYMD mdy))
      | none => props
    else dictInsert props "Due Date" (NotionValue.date due)
  else props

/-- Model of `_convert_to_notion_properties`: build the Notion properties map
from a standardized task record, in the source's insertion order. -/
def convertToNotionProperties (task_data : List (String × String)) :
    List (String × NotionValue) :=
  let properties : List (String × NotionValue) := []
  let properties :=
    dictInsert properties "Category" (NotionValue.title (dictGetD task_data "Category" ""))
  let properties := addRichTextIf properties "Sprint" (dictGetD task_data "Sprint" "")
  let properties :=
    addRichTextIf properties "Task Description" (dictGetD task_data "Task Description" "")
  let properties :=
    addRichTextIf properties "Tools/APIs Required" (dictGetD task_data "Tools/APIs Required" "")
  let properties :=
    addRichTextIf properties "API/Tokens Required" (dictGetD task_data "API/Tokens Required" "")
  let properties := addSelectIf properties "Status" (dictGetD task_data "Status" "Not Started")
  let properties := addSelectIf properties "Priority" (dictGetD task_data "Priority" "Normal")
  let properties := addDueDate properties (dictGetD task_data "Due Date" "")
  let properties :=
    addSelectIf properties "Estimated Effort" (dictGetD task_data "Estimated Effort" "")
  let properties := addRichTextIf properties "Dependencies" (dictGetD task_data "Dependencies" "")
  let properties :=
    addRichTextIf properties "Notes/Comments" (dictGetD task_data "Notes/Comments" "")
  properties

theorem dictGet?_addRichTextIf_ne (props : List (String × NotionValue))
    {key K : String} (v : String) (h : key ≠ K) :
    dictGet? (addRichTextIf props key v) K = dictGet? props K := by
  unfold addRichTextIf
  split
  · rw [dictGet?_insert_ne _ _ h]
  · rfl

theorem dictGet?_addSelectIf_ne (props : List (String × NotionValue))
    {key K : String} (v : String) (h : key ≠ K) :
    dictGet? (addSelectIf props key v) K = dictGet? props K := by
  unfold addSelectIf
  split
  · rw [dictGet?_insert_ne _ _ h]
  · rfl

theorem dictGet?_addDueDate_ne (props : List (String × NotionValue))
    (due : String) {K : String} (h : K ≠ "Due Date") :
    dictGet? (addDueDate props due) K = dictGet? props K := by
  unfold addDueDate
  split
  · split
    · split
      · rw [dictGet?_insert_ne _ _ (Ne.symm h)]
      · rfl
    · rw [dictGet?_insert_ne _ _ (Ne.symm h)]
  · rfl

theorem dictGet?_addSelectIf_pos (props : List (String × NotionValue))
    (key : String) {v : String} (h : v ≠ "") :
    dictGet? (addSelectIf props key v) key = some (NotionValue.select v) := by
  simp [addSelectIf, h]

theorem dictGet?_addSelectIf_empty (props : List (String × NotionValue))
    (key : String) : dictGet? (addSelectIf props key "") key = dictGet? props key := by
  simp [addSelectIf]

theorem dictGet?_addRichTextIf_pos (props : List (String × NotionValue))
    (key : String) {v : String} (h : v ≠ "") :
    dictGet? (addRichTextIf props key v) key = some (NotionValue.richText v) := by
  simp [addRichTextIf, h]

/-- Looking up "Due Date" in the converted properties only depends on
the Due Date block: the steps after it touch other keys. -/
theorem dictGet?_convert_dueDate (task_data : List (String × String)) :
    dictGet? (convertToNotionProperties task_data) "Due Date" =
      dictGet?
        (addDueDate
          (addSelectIf
            (addSelectIf
              (addRichTextIf
                (addRichTextIf
                  (addRichTextIf
                    (addRichTextIf
                      (dictInsert [] "Category"
                        (NotionValue.title (dictGetD task_data "Category" "")))
                      "Sprint" (dictGetD task_data "Sprint" ""))
                    "Task Description" (dictGetD task_data "Task Description" ""))
                  "Tools/APIs Required" (dictGetD task_data "Tools/APIs Required" ""))
                "API/Tokens Required" (dictGetD task_data "API/Tokens Required" ""))
              "Status" (dictGetD task_data "Status" "Not Started"))
            "Priority" (dictGetD task_data "Priority" "Normal"))
          (dictGetD task_data "Due Date" "")) "Due Date" := by
  unfold convertToNotionProperties
  rw [dictGet?_addRichTextIf_ne _ _ (by decide),
    dictGet?_addRichTextIf_ne _ _ (by decide),
    dictGet?_addSelectIf_ne _ _ (by decide)]

/-! ### Remote index building (`_fetch_existing_tasks`) -/

/-- One record returned by the paginated query: its identifier and the
text contents of the segments of its `Category` title field. -/
structure RemotePage : Type where
  id : String
  categoryTitle : List String
deriving DecidableEq, Repr

/-- One response of the paginated query. -/
structure QueryResponse : Type where
  results : List RemotePage
  has_more : Bool
  next_cursor : Option String
deriving DecidableEq, Repr

/-- Register one returned record in the index: when the title field has
a first text segment with non-empty content, map that content to the
record's identifier; otherwise leave the index unchanged. -/
def registerPage (idx : List (String × String)) (p : RemotePage) :
    List (String × String) :=
  match p.categoryTitle with
  | [] => idx
  | c :: _ => if c ≠ "" then dictInsert idx c p.id else idx

/-- The cursor the request payload carries: `if start_cursor:` treats
`None` and the empty string as absent. -/
def effectiveCursor (c : Option String) : Option String :=
  match c with
  | some s => if s ≠ "" then some s else none
  | none => none

/-- The pagination loop, determinized by the list of responses the
server returns in order. Returns the accumulated index together with
the trace of cursors sent with the successive requests. The loop stops
after the first response whose `has_more` is false; a well-formed
response sequence (every response but the last has `has_more = true`)
is consumed entirely. -/
def fetchGo : List QueryResponse → Option String → List (String × String) →
    List (String × String) × List (Option String)
  | [], _, idx => (idx, [])
  | r :: rest, cursor, idx =>
      let idx2 := r.results.foldl registerPage idx
      if r.has_more then
        let res := fetchGo rest r.next_cursor idx2
        (res.1, effectiveCursor cursor :: res.2)
      else (idx2, [effectiveCursor cursor])

/-- Model of `_fetch_existing_tasks`: start with no cursor and an empty index. -/
def fetchExistingTasks (responses : List QueryResponse) :
    List (String × String) × List (Option String) :=
  fetchGo responses none []

/-! ### Collection phase of `process_csv_files` -/

/-- State of the CSV collection loop: the accumulated `all_tasks`
list, the `unique_categories` set (as the list of its members in
insertion order), and the categories for which a duplicate warning was
printed, in order. -/
structure CollectState : Type where
  tasks : List (List (String × String))
  seen : List String
  warnings : List String
deriving DecidableEq, Repr

/-- Processing of one CSV row in the collection loop: normalize it,
silently drop it when the resulting Category is missing or empty,
otherwise warn on a duplicate Category and append the task. -/
def collectRow (st : CollectState) (row : List (String × String)) : CollectState :=
  let task := normalizeRow row
  match dictGet? task "Category" with
  | none => st
  | some c =>
      if c = "" then st
      else
        { tasks := st.tasks ++ [task],
          seen := if st.seen.contains c then st.seen else st.seen ++ [c],
          warnings := st.warnings ++ (if st.seen.contains c then [c] else []) }

/-- The collection loop over all rows of all files, in file-then-row
order. -/
def collectRows (rows : List (List (String × String))) : CollectState :=
  rows.foldl collectRow ⟨[], [], []⟩

/-- The count `results["total"] = len(all_tasks)`. -/
def totalCount (rows : List (List (String × String))) : Nat :=
  (collectRows rows).tasks.length

/-! ### Upload phase of `process_csv_files` -/

/-- The remote calls the upload loop can issue. -/
inductive SyncEvent : Type
  | createCall (category : Option String)
  | updateCall (pageId : String) (category : Option String)
deriving DecidableEq, Repr

/-- The outcome counters of a run. -/
structure Counters : Type where
  created : Nat
  updated : Nat
  errors : Nat
deriving DecidableEq, Repr

def Counters.add (a b : Counters) : Counters :=
  ⟨a.created + b.created, a.updated + b.updated, a.errors + b.errors⟩

/-- Membership `category in uploader.existing_tasks`: `task.get("Category")`
can be `None`, which is never a key of the index. -/
def taskExisting (index task : List (String × String)) : Bool :=
  match dictGet? task "Category" with
  | some c => dictHas index c
  | none => false

/-- Processing of one collected task: look its Category up in the
index built at startup, dispatch a create or an update according to
the mode, and count the outcome. `callFails` tells whether the remote
call (if one is issued) raises; the exception is caught for this task
and counted as one error. Returns the calls issued and the counter
deltas. -/
def processTask (index : List (String × String)) (mode : String)
    (task : List (String × String)) (callFails : Bool) :
    List SyncEvent × Counters :=
  let category := dictGet? task "Category"
  let isExisting := taskExisting index task
  if isExisting then
    if mode = "update" ∨ mode = "both" then
      let pageId := match category with
        | some c => dictGetD index c ""
        | none => ""
      if callFails then ([SyncEvent.updateCall pageId category], ⟨0, 0, 1⟩)
      else ([SyncEvent.updateCall pageId category], ⟨0, 1, 0⟩)
    else ([], ⟨0, 0, 0⟩)
  else
    if mode = "create" ∨ mode = "both" then
      if callFails then ([SyncEvent.createCall category], ⟨0, 0, 1⟩)
      else ([SyncEvent.createCall category], ⟨1, 0, 0⟩)
    else ([], ⟨0, 0, 0⟩)

/-- The upload loop over the collected tasks, each paired with the
fate of its remote call: events in order of issue and summed
counters. -/
def uploadTasks (index : List (String × String)) (mode : String) :
    List (List (String × String) × Bool) → List SyncEvent × Counters
  | [] => ([], ⟨0, 0, 0⟩)
  | tb :: rest =>
      let r := processTask index mode tb.1 tb.2
      let rs := uploadTasks index mode rest
      (r.1 ++ rs.1, r.2.add rs.2)

/-! ### Characterizations of the converted properties map -/

theorem convert_status_eq (t : List (String × String)) :
    dictGet? (convertToNotionProperties t) "Status" =
      (if dictGetD t "Status" "Not Started" = "" then none
       else some (NotionValue.select (dictGetD t "Status" "Not Started"))) := by
  simp only [convertToNotionProperties]
  rw [dictGet?_addRichTextIf_ne _ _ (by decide : ("Notes/Comments" : String) ≠ "Status"),
    dictGet?_addRichTextIf_ne _ _ (by decide : ("Dependencies" : String) ≠ "Status"),
    dictGet?_addSelectIf_ne _ _ (by decide : ("Estimated Effort" : String) ≠ "Status"),
    dictGet?_addDueDate_ne _ _ (by decide : ("Status" : String) ≠ "Due Date"),
    dictGet?_addSelectIf_ne _ _ (by decide : ("Priority" : String) ≠ "Status")]
  by_cases h : dictGetD t "Status" "Not Started" = ""
  · rw [h, dictGet?_addSelectIf_empty,
      dictGet?_addRichTextIf_ne _ _ (by decide : ("API/Tokens Required" : String) ≠ "Status"),
      dictGet?_addRichTextIf_ne _ _ (by decide : ("Tools/APIs Required" : String) ≠ "Status"),
      dictGet?_addRichTextIf_ne _ _ (by decide : ("Task Description" : String) ≠ "Status"),
      dictGet?_addRichTextIf_ne _ _ (by decide : ("Sprint" : String) ≠ "Status"),
      dictGet?_insert_ne _ _ (by decide : ("Category" : String) ≠ "Status")]
    simp [dictGet?, h]
  · rw [dictGet?_addSelectIf_pos _ _ h]
    simp [h]

theorem convert_priority_eq (t : List (String × String)) :
    dictGet? (convertToNotionProperties t) "Priority" =
      (if dictGetD t "Priority" "Normal" = "" then none
       else some (NotionValue.select (dictGetD t "Priority" "Normal"))) := by
  simp only [convertToNotionProperties]
  rw [dictGet?_addRichTextIf_ne _ _ (by decide : ("Notes/Comments" : String) ≠ "Priority"),
    dictGet?_addRichTextIf_ne _ _ (by decide : ("Dependencies" : String) ≠ "Priority"),
    dictGet?_addSelectIf_ne _ _ (by decide : ("Estimated Effort" : String) ≠ "Priority"),
    dictGet?_addDueDate_ne _ _ (by decide : ("Priority" : String) ≠ "Due Date")]
  by_cases h : dictGetD t "Priority" "Normal" = ""
  · rw [h, dictGet?_addSelectIf_empty,
      dictGet?_addSelectIf_ne _ _ (by decide : ("Status" : String) ≠ "Priority"),
      dictGet?_addRichTextIf_ne _ _ (by decide : ("API/Tokens Required" : String) ≠ "Priority"),
      dictGet?_addRichTextIf_ne _ _ (by decide : ("Tools/APIs Required" : String) ≠ "Priority"),
      dictGet?_addRichTextIf_ne _ _ (by decide : ("Task Description" : String) ≠ "Priority"),
      dictGet?_addRichTextIf_ne _ _ (by decide : ("Sprint" : String) ≠ "Priority"),
      dictGet?_insert_ne _ _ (by decide : ("Category" : String) ≠ "Priority")]
    simp [dictGet?, h]
  · rw [dictGet?_addSelectIf_pos _ _ h]
    simp [h]

theorem convert_dueDate_eq (t : List (String × String)) :
    dictGet? (convertToNotionProperties t) "Due Date" =
      (if dictGetD t "Due Date" "" = "" then none
       else if containsDash (dictGetD t "Due Date" "") = false then
         (parseMDY (dictGetD t "Due Date" "")).map
           (fun mdy => NotionValue.date (formatYMD mdy))
       else some (NotionValue.date (dictGetD t "Due Date" ""))) := by
  simp only [convertToNotionProperties]
  rw [dictGet?_addRichTextIf_ne _ _ (by decide : ("Notes/Comments" : String) ≠ "Due Date"),
    dictGet?_addRichTextIf_ne _ _ (by decide : ("Dependencies" : String) ≠ "Due Date"),
    dictGet?_addSelectIf_ne _ _ (by decide : ("Estimated Effort" : String) ≠ "Due Date")]
  have hpre :
      dictGet?
        (addSelectIf
          (addSelectIf
            (addRichTextIf
              (addRichTextIf
                (addRichTextIf
                  (addRichTextIf
                    (dictInsert [] "Category"
                      (NotionValue.title (dictGetD t "Category" "")))
                    "Sprint" (dictGetD t "Sprint" ""))
                  "Task Description" (dictGetD t "Task Description" ""))
                "Tools/APIs Required" (dictGetD t "Tools/APIs Required" ""))
              "API/Tokens Required" (dictGetD t "API/Tokens Required" ""))
            "Status" (dictGetD t "Status" "Not Started"))
          "Priority" (dictGetD t "Priority" "Normal")) "Due Date" = none := by
    rw [dictGet?_addSelectIf_ne _ _ (by decide : ("Priority" : String) ≠ "Due Date"),
      dictGet?_addSelectIf_ne _ _ (by decide : ("Status" : String) ≠ "Due Date"),
      dictGet?_addRichTextIf_ne _ _ (by decide : ("API/Tokens Required" : String) ≠ "Due Date"),
      dictGet?_addRichTextIf_ne _ _ (by decide : ("Tools/APIs Required" : String) ≠ "Due Date"),
      dictGet?_addRichTextIf_ne _ _ (by decide : ("Task Description" : String) ≠ "Due Date"),
      dictGet?_addRichTextIf_ne _ _ (by decide : ("Sprint" : String) ≠ "Due Date"),
      dictGet?_insert_ne _ _ (by decide : ("Category" : String) ≠ "Due Date")]
    rfl
  unfold addDueDate
  by_cases h0 : dictGetD t "Due Date" "" = ""
  · simp [h0, hpre]
  · by_cases h1 : containsDash (dictGetD t "Due Date" "") = false
    · cases hp : parseMDY (dictGetD t "Due Date" "") with
      | none => simp [h0, h1, hp, hpre]
      | some mdy => simp [h0, h1, hp]
    · have h1' : containsDash (dictGetD t "Due Date" "") = true := by
        simpa using h1
      simp [h0, h1']

/-! ### Helper lemmas on the upload loop and the pagination loop -/

@[simp]
theorem Counters.zero_add (c : Counters) : Counters.add ⟨0, 0, 0⟩ c = c := by
  cases c; simp [Counters.add]

@[simp]
theorem Counters.add_zero (c : Counters) : Counters.add c ⟨0, 0, 0⟩ = c := by
  cases c; simp [Counters.add]

theorem Counters.add_assoc (a b c : Counters) :
    Counters.add (Counters.add a b) c = Counters.add a (Counters.add b c) := by
  cases a; cases b; cases c; simp [Counters.add, Nat.add_assoc]

theorem uploadTasks_append (index : List (String × String)) (mode : String)
    (l1 l2 : List (List (String × String) × Bool)) :
    uploadTasks index mode (l1 ++ l2) =
      ((uploadTasks index mode l1).1 ++ (uploadTasks index mode l2).1,
        Counters.add (uploadTasks index mode l1).2 (uploadTasks index mode l2).2) := by
  induction l1 with
  | nil => simp [uploadTasks]
  | cons hd tl ih => simp [uploadTasks, ih, Counters.add_assoc]

theorem processTask_create_shape (index : List (String × String))
    (task : List (String × String)) (b : Bool) :
    (processTask index "create" task b).1 = [] ∨
      (processTask index "create" task b).1 =
        [SyncEvent.createCall (dictGet? task "Category")] := by
  unfold processTask
  by_cases h : taskExisting index task <;> cases b <;> simp [h]

theorem processTask_update_shape (index : List (String × String))
    (task : List (String × String)) (b : Bool) :
    (processTask index "update" task b).1 = [] ∨
      ∃ p, (processTask index "update" task b).1 =
        [SyncEvent.updateCall p (dictGet? task "Category")] := by
  unfold processTask
  by_cases h : taskExisting index task <;> cases b <;> simp [h]

theorem fetchGo_spec (last : QueryResponse) (hlast : last.has_more = false)
    (rs : List QueryResponse) (hrs : ∀ r ∈ rs, r.has_more = true) :
    ∀ cursor idx, fetchGo (rs ++ [last]) cursor idx =
      (((rs ++ [last]).flatMap (fun r => r.results)).foldl registerPage idx,
        effectiveCursor cursor :: rs.map (fun r => effectiveCursor r.next_cursor)) := by
  induction rs with
  | nil =>
      intro cursor idx
      simp [fetchGo, hlast]
  | cons r rest ih =>
      intro cursor idx
      have hr : r.has_more = true := hrs r (List.mem_cons_self _ _)
      have ihr := ih (fun x hx => hrs x (List.mem_cons_of_mem _ hx))
      simp [fetchGo, hr, ihr, List.foldl_append]

/-! ### Claim theorems -/

/-- C1 counterexample: the claim says a Due Date value whose parsing
fails, such as "not-a-date", leaves the Due Date property entirely
absent; but "not-a-date" contains a literal "-", so the code never
parses it and stores it unchanged — the property is present. -/
theorem dueDate_notADate_kept :
    dictGet? (convertToNotionProperties
        [("Category", "T"), ("Due Date", "not-a-date")]) "Due Date" =
      some (NotionValue.date "not-a-date") ∧
    dictGet? (convertToNotionProperties
        [("Category", "T"), ("Due Date", "not-a-date")]) "Due Date" ≠ none := by
  constructor <;> decide

/-- C1 (amended): for a task with a non-empty Due Date value, if the
value lacks a literal "-" it is parsed as month/day/year and
reformatted to year-month-day, and if that parse fails the Due Date
property is entirely absent with no error; a value containing "-"
(even a non-date such as "not-a-date") passes through unchanged. -/
theorem dueDate_coercion (t : List (String × String)) (d : String)
    (hd : dictGet? t "Due Date" = some d) (hne : d ≠ "") :
    (containsDash d = false → parseMDY d = none →
      dictGet? (convertToNotionProperties t) "Due Date" = none) ∧
    (∀ mdy, containsDash d = false → parseMDY d = some mdy →
      dictGet? (convertToNotionProperties t) "Due Date" =
        some (NotionValue.date (formatYMD mdy))) ∧
    (containsDash d = true →
      dictGet? (convertToNotionProperties t) "Due Date" =
        some (NotionValue.date d)) := by
  have hD : dictGetD t "Due Date" "" = d := by rw [dictGetD, hd]; rfl
  refine ⟨?_, ?_, ?_⟩
  · intro hc hp
    rw [convert_dueDate_eq, hD]
    simp [hne, hc, hp]
  · intro mdy hc hp
    rw [convert_dueDate_eq, hD]
    simp [hne, hc, hp]
  · intro hc
    rw [convert_dueDate_eq, hD]
    simp [hne, hc]

/-- C1 witness: "03/15/2025" is reformatted to "2025-03-15", "nodate"
(no "-") fails to parse and the property is omitted, and "2025-03-15"
passes through unchanged. -/
theorem dueDate_coercion_witness :
    dictGet? (convertToNotionProperties
        [("Category", "T"), ("Due Date", "03/15/2025")]) "Due Date" =
      some (NotionValue.date "2025-03-15") ∧
    dictGet? (convertToNotionProperties
        [("Category", "T"), ("Due Date", "nodate")]) "Due Date" = none ∧
    dictGet? (convertToNotionProperties
        [("Category", "T"), ("Due Date", "2025-03-15")]) "Due Date" =
      some (NotionValue.date "2025-03-15") := by
  refine ⟨?_, ?_, ?_⟩
  · have h := (dueDate_coercion [("Category", "T"), ("Due Date", "03/15/2025")]
      "03/15/2025" (by decide) (by decide)).2.1 (3, 15, 2025) (by decide) (by decide)
    rw [h]; decide
  · exact (dueDate_coercion [("Category", "T"), ("Due Date", "nodate")]
      "nodate" (by decide) (by decide)).1 (by decide) (by decide)
  · exact (dueDate_coercion [("Category", "T"), ("Due Date", "2025-03-15")]
      "2025-03-15" (by decide) (by decide)).2.2 (by decide)

/-- C9: when the Status key is entirely absent from the normalized
record the produced properties map contains Status with the default
"Not Started" (and Priority defaults to "Normal"); when the key is
present with an empty-string value the Status (resp. Priority)
property is omitted entirely. -/
theorem statusPriority_defaults (t1 t2 : List (String × String))
    (h1s : dictGet? t1 "Status" = none) (h1p : dictGet? t1 "Priority" = none)
    (h2s : dictGet? t2 "Status" = some "") (h2p : dictGet? t2 "Priority" = some "") :
    dictGet? (convertToNotionProperties t1) "Status" =
      some (NotionValue.select "Not Started") ∧
    dictGet? (convertToNotionProperties t1) "Priority" =
      some (NotionValue.select "Normal") ∧
    dictGet? (convertToNotionProperties t2) "Status" = none ∧
    dictGet? (convertToNotionProperties t2) "Priority" = none := by
  have e1 : dictGetD t1 "Status" "Not Started" = "Not Started" := by
    rw [dictGetD, h1s]; rfl
  have e2 : dictGetD t1 "Priority" "Normal" = "Normal" := by
    rw [dictGetD, h1p]; rfl
  have e3 : dictGetD t2 "Status" "Not Started" = "" := by
    rw [dictGetD, h2s]; rfl
  have e4 : dictGetD t2 "Priority" "Normal" = "" := by
    rw [dictGetD, h2p]; rfl
  refine ⟨?_, ?_, ?_, ?_⟩
  · rw [convert_status_eq, e1]; decide
  · rw [convert_priority_eq, e2]; decide
  · rw [convert_status_eq, e3]; decide
  · rw [convert_priority_eq, e4]; decide

/-- C9 witness: a record with neither key gets both defaults; a record
with both keys empty gets neither property. -/
theorem statusPriority_defaults_witness :
    dictGet? (convertToNotionProperties [("Category", "X")]) "Status" =
      some (NotionValue.select "Not Started") ∧
    dictGet? (convertToNotionProperties [("Category", "X")]) "Priority" =
      some (NotionValue.select "Normal") ∧
    dictGet? (convertToNotionProperties
        [("Category", "X"), ("Status", ""), ("Priority", "")]) "Status" = none ∧
    dictGet? (convertToNotionProperties
        [("Category", "X"), ("Status", ""), ("Priority", "")]) "Priority" = none :=
  statusPriority_defaults [("Category", "X")]
    [("Category", "X"), ("Status", ""), ("Priority", "")]
    (by decide) (by decide) (by decide) (by decide)

/-- C10: when the accumulated Notes/Comments value is non-empty and a
later field mapping to Notes/Comments carries an empty value, the
empty value overwrites the accumulated value; the concatenation branch
applies only when the later value is non-empty. -/
theorem notes_empty_overwrites (task : List (String × String)) (k v : String)
    (hk : dictGet? COLUMN_MAPPING k = some "Notes/Comments")
    (hv : dictGet? task "Notes/Comments" = some v) (hvne : v ≠ "") :
    dictGet? (renameStep task (k, "")) "Notes/Comments" = some "" ∧
    (∀ w, w ≠ "" →
      dictGet? (renameStep task (k, w)) "Notes/Comments" =
        some (v ++ " | " ++ w)) := by
  have hhas : dictHas task "Notes/Comments" = true := by rw [dictHas, hv]; rfl
  have hgd : dictGetD task "Notes/Comments" "" = v := by rw [dictGetD, hv]; rfl
  constructor
  · simp [renameStep, hk]
  · intro w hw
    simp [renameStep, hk, hhas, hgd, hw]

/-- C10 witness: an accumulated "Add X" is wiped out by a later empty
Acceptance Criteria value, while a non-empty one is concatenated. -/
theorem notes_empty_overwrites_witness :
    dictGet? (renameStep [("Notes/Comments", "Add X")]
        ("Acceptance Criteria", "")) "Notes/Comments" = some "" ∧
    dictGet? (renameStep [("Notes/Comments", "Add X")]
        ("Acceptance Criteria", "Must pass Y")) "Notes/Comments" =
      some ("Add X" ++ " | " ++ "Must pass Y") := by
  have h := notes_empty_overwrites [("Notes/Comments", "Add X")]
    "Acceptance Criteria" "Add X" (by decide) (by decide) (by decide)
  exact ⟨h.1, h.2 "Must pass Y" (by decide)⟩

/-- C3 counterexample: the claim says two fields mapping to
Notes/Comments always concatenate with " | " rather than overwriting;
but when the later field's value is empty the accumulated value is
overwritten with "", so the row with Enhancements "Add X" and an empty
Acceptance Criteria yields Notes/Comments "" instead of a
concatenation. -/
theorem notes_concat_overwrite_example :
    dictGet? (normalizeRow [("Enhancements", "Add X"), ("Acceptance Criteria", "")])
        "Notes/Comments" = some "" ∧
    ("" : String) ≠ "Add X" ++ " | " ++ "" ∧ ("" : String) ≠ "Add X" := by
  refine ⟨by decide, by decide, by decide⟩

/-- C3 (amended): for a row in which two differently-named fields both
map to canonical Notes/Comments and the later field's value is
non-empty (and no other field of the row lands on Notes/Comments), the
normalizer concatenates the two values in field order with the fixed
separator " | " rather than overwriting. -/
theorem notes_concat (r1 r2 r3 : List (String × String)) (k1 k2 v1 v2 : String)
    (hk1 : dictGet? COLUMN_MAPPING k1 = some "Notes/Comments")
    (hk2 : dictGet? COLUMN_MAPPING k2 = some "Notes/Comments")
    (hkk : k1 ≠ k2) (hv2 : v2 ≠ "")
    (h1 : ∀ kv ∈ r1, targetKey kv.1 ≠ "Notes/Comments")
    (h2 : ∀ kv ∈ r2, targetKey kv.1 ≠ "Notes/Comments")
    (h3 : ∀ kv ∈ r3, targetKey kv.1 ≠ "Notes/Comments") :
    dictGet? (normalizeRow (r1 ++ (k1, v1) :: r2 ++ (k2, v2) :: r3))
        "Notes/Comments" = some (v1 ++ " | " ++ v2) := by
  rw [normalizeRow, dictGet?_deriveCategory_ne _ (by decide), renameRow,
    List.foldl_append, List.foldl_cons, List.foldl_append, List.foldl_cons,
    dictGet?_foldl_renameStep_ne r3 h3]
  have hA : dictGet? (List.foldl renameStep [] r1) "Notes/Comments" = none := by
    rw [dictGet?_foldl_renameStep_ne r1 h1]; rfl
  have hB : dictGet? (renameStep (List.foldl renameStep [] r1) (k1, v1))
      "Notes/Comments" = some v1 := by
    have hh : dictHas (List.foldl renameStep [] r1) "Notes/Comments" = false := by
      rw [dictHas, hA]; rfl
    simp [renameStep, hk1, hh]
  set C := List.foldl renameStep
    (renameStep (List.foldl renameStep [] r1) (k1, v1)) r2 with hCdef
  have hC : dictGet? C "Notes/Comments" = some v1 := by
    rw [hCdef, dictGet?_foldl_renameStep_ne r2 h2, hB]
  have hhas : dictHas C "Notes/Comments" = true := by
    rw [dictHas, hC]; rfl
  have hgd : dictGetD C "Notes/Comments" "" = v1 := by
    rw [dictGetD, hC]; rfl
  simp [renameStep, hk2, hhas, hgd, hv2]

/-- C3 witness: Enhancements "Add X" and Acceptance Criteria
"Must pass Y" in the same row yield "Add X | Must pass Y". -/
theorem notes_concat_witness :
    dictGet? (normalizeRow
        [("Enhancements", "Add X"), ("Acceptance Criteria", "Must pass Y")])
        "Notes/Comments" = some ("Add X" ++ " | " ++ "Must pass Y") := by
  have h := notes_concat [] [] [] "Enhancements" "Acceptance Criteria"
    "Add X" "Must pass Y" (by decide) (by decide) (by decide) (by decide)
    (by intro kv hkv; cases hkv) (by intro kv hkv; cases hkv)
    (by intro kv hkv; cases hkv)
  simpa using h

/-- C7: a field whose name is in the translation table is stored under
its canonical name (and, when the two names differ, not under the
original one); a field absent from the table passes through unchanged
under its original name; and if after renaming Category is absent but
a "Task Name" field exists, Category is derived from it. -/
theorem rename_passthrough_derive (k nk v : String)
    (hk : dictGet? COLUMN_MAPPING k = some nk)
    (k2 v2 : String) (hk2 : dictGet? COLUMN_MAPPING k2 = none)
    (t : List (String × String))
    (task : List (String × String)) (tv : String)
    (h1 : dictGet? task "Category" = none)
    (h2 : dictGet? task "Task Name" = some tv) :
    dictGet? (renameRow [(k, v)]) nk = some v ∧
    (k ≠ nk → dictGet? (renameRow [(k, v)]) k = none) ∧
    renameStep t (k2, v2) = dictInsert t k2 v2 ∧
    dictGet? (normalizeRow [(k2, v2)]) k2 = some v2 ∧
    dictGet? (deriveCategory task) "Category" = some tv := by
  have hTN : k2 ≠ "Task Name" := by
    intro h
    rw [h] at hk2
    exact absurd hk2 (by decide)
  have hhnil : dictHas ([] : List (String × String)) nk = false := rfl
  have hstep : renameRow [(k, v)] = dictInsert [] nk v := by
    simp [renameRow, renameStep, hk, hhnil]
  have hstep2 : renameRow [(k2, v2)] = [(k2, v2)] := by
    simp [renameRow, renameStep, hk2, dictInsert]
  refine ⟨?_, ?_, ?_, ?_, ?_⟩
  · rw [hstep, dictGet?_insert_self]
  · intro hne
    rw [hstep, dictGet?_insert_ne _ _ (Ne.symm hne)]
    rfl
  · simp [renameStep, hk2]
  · simp only [normalizeRow]
    rw [hstep2]
    by_cases hc : k2 = "Category"
    · subst hc
      simp [deriveCategory, dictHas, dictGet?]
    · have hcat : dictGet? [(k2, v2)] "Task Name" = none := by
        simp [dictGet?, hTN]
      have hder : deriveCategory [(k2, v2)] = [(k2, v2)] := by
        simp [deriveCategory, dictHas, hcat]
      rw [hder]
      simp [dictGet?]
  · have hh1 : dictHas task "Category" = false := by rw [dictHas, h1]; rfl
    have hh2 : dictHas task "Task Name" = true := by rw [dictHas, h2]; rfl
    have hgd : dictGetD task "Task Name" "" = tv := by rw [dictGetD, h2]; rfl
    simp [deriveCategory, hh1, hh2, hgd]

/-- C7 witness: "Week/Milestone" is renamed to "Sprint"; an unmapped
"Custom Col" passes through; Category is derived from a "Task Name"
entry when Category is absent. -/
theorem rename_passthrough_derive_witness :
    dictGet? (renameRow [("Week/Milestone", "S1")]) "Sprint" = some "S1" ∧
    dictGet? (renameRow [("Week/Milestone", "S1")]) "Week/Milestone" = none ∧
    renameStep [("X", "y")] ("Custom Col", "val") =
      dictInsert [("X", "y")] "Custom Col" "val" ∧
    dictGet? (normalizeRow [("Custom Col", "val")]) "Custom Col" = some "val" ∧
    dictGet? (deriveCategory [("Task Name", "Setup DB")]) "Category" =
      some "Setup DB" := by
  have h := rename_passthrough_derive "Week/Milestone" "Sprint" "S1"
    (by decide) "Custom Col" "val" (by decide) [("X", "y")]
    [("Task Name", "Setup DB")] "Setup DB" (by decide) (by decide)
  exact ⟨h.1, h.2.1 (by decide), h.2.2.1, h.2.2.2.1, h.2.2.2.2⟩

/-- C2: in mode "create" no update call is ever issued (even for a
Category present in the index), in mode "update" no create call is
ever issued (in particular not for a Category absent from the index),
and the two no-op cases issue no call and leave every counter
unchanged. -/
theorem mode_gating (index : List (String × String))
    (tasks : List (List (String × String) × Bool))
    (task : List (String × String)) (fails : Bool)
    (hin : taskExisting index task = true)
    (task2 : List (String × String)) (fails2 : Bool)
    (hout : taskExisting index task2 = false) :
    (∀ p c, SyncEvent.updateCall p c ∉ (uploadTasks index "create" tasks).1) ∧
    (∀ c, SyncEvent.createCall c ∉ (uploadTasks index "update" tasks).1) ∧
    processTask index "create" task fails = ([], ⟨0, 0, 0⟩) ∧
    processTask index "update" task2 fails2 = ([], ⟨0, 0, 0⟩) := by
  refine ⟨?_, ?_, ?_, ?_⟩
  · intro p c
    induction tasks with
    | nil => simp [uploadTasks]
    | cons hd tl ih =>
        intro hmem
        simp only [uploadTasks] at hmem
        rcases List.mem_append.mp hmem with hm | hm
        · rcases processTask_create_shape index hd.1 hd.2 with hsh | hsh <;>
            rw [hsh] at hm <;> simp at hm
        · exact ih hm
  · intro c
    induction tasks with
    | nil => simp [uploadTasks]
    | cons hd tl ih =>
        intro hmem
        simp only [uploadTasks] at hmem
        rcases List.mem_append.mp hmem with hm | hm
        · rcases processTask_update_shape index hd.1 hd.2 with hsh | ⟨q, hsh⟩ <;>
            rw [hsh] at hm <;> simp at hm
        · exact ih hm
  · simp [processTask, hin]
  · simp [processTask, hout]

/-- C2 witness: with RemoteIndex mapping "Setup DB" to "page_1", a run
over an existing and a new task issues no update in mode "create" and
no create in mode "update", and the two no-op tasks change nothing. -/
theorem mode_gating_witness :
    SyncEvent.updateCall "page_1" (some "Setup DB") ∉
      (uploadTasks [("Setup DB", "page_1")] "create"
        [([("Category", "Setup DB")], false), ([("Category", "New Task")], false)]).1 ∧
    SyncEvent.createCall (some "New Task") ∉
      (uploadTasks [("Setup DB", "page_1")] "update"
        [([("Category", "Setup DB")], false), ([("Category", "New Task")], false)]).1 ∧
    processTask [("Setup DB", "page_1")] "create" [("Category", "Setup DB")] false =
      ([], ⟨0, 0, 0⟩) ∧
    processTask [("Setup DB", "page_1")] "update" [("Category", "New Task")] false =
      ([], ⟨0, 0, 0⟩) := by
  have h := mode_gating [("Setup DB", "page_1")]
    [([("Category", "Setup DB")], false), ([("Category", "New Task")], false)]
    [("Category", "Setup DB")] false (by decide)
    [("Category", "New Task")] false (by decide)
  exact ⟨h.1 "page_1" (some "Setup DB"), h.2.1 (some "New Task"), h.2.2.1, h.2.2.2⟩

/-- C5: a row whose normalized Category is missing or empty is dropped
silently: the collection state (tasks, duplicate set and warnings) is
as if the row were not there, and the reported total excludes it. -/
theorem empty_category_dropped (pre post : List (List (String × String)))
    (row : List (String × String))
    (h : dictGet? (normalizeRow row) "Category" = none ∨
      dictGet? (normalizeRow row) "Category" = some "") :
    collectRows (pre ++ row :: post) = collectRows (pre ++ post) ∧
    totalCount (pre ++ row :: post) = totalCount (pre ++ post) := by
  have hrow : ∀ st, collectRow st row = st := by
    intro st
    rcases h with h | h <;> simp [collectRow, h]
  have hc : collectRows (pre ++ row :: post) = collectRows (pre ++ post) := by
    rw [collectRows, collectRows, List.foldl_append, List.foldl_append,
      List.foldl_cons, hrow]
  refine ⟨hc, ?_⟩
  rw [totalCount, totalCount, hc]

/-- C5 witness: a row normalizing to a record without Category is
dropped from the collection and from the total. -/
theorem empty_category_dropped_witness :
    collectRows [[("Description", "x")], [("Task Name", "A")]] =
      collectRows [[("Task Name", "A")]] ∧
    totalCount [[("Description", "x")], [("Task Name", "A")]] =
      totalCount [[("Task Name", "A")]] :=
  empty_category_dropped [] [[("Task Name", "A")]] [("Description", "x")]
    (Or.inl (by decide))

/-- C6: a transport failure of a per-task create or update call is
caught for that task only: it contributes exactly one error and no
created or updated count, and the surrounding tasks are processed
exactly as they would be without it. -/
theorem transport_error_isolated (index : List (String × String)) (mode : String)
    (pre post : List (List (String × String) × Bool))
    (task : List (String × String))
    (hcall : (taskExisting index task = true ∧ (mode = "update" ∨ mode = "both")) ∨
      (taskExisting index task = false ∧ (mode = "create" ∨ mode = "both"))) :
    (processTask index mode task true).2 = ⟨0, 0, 1⟩ ∧
    (uploadTasks index mode (pre ++ (task, true) :: post)).2.errors =
      (uploadTasks index mode pre).2.errors + 1 +
        (uploadTasks index mode post).2.errors ∧
    (uploadTasks index mode (pre ++ (task, true) :: post)).2.created =
      (uploadTasks index mode pre).2.created +
        (uploadTasks index mode post).2.created ∧
    (uploadTasks index mode (pre ++ (task, true) :: post)).2.updated =
      (uploadTasks index mode pre).2.updated +
        (uploadTasks index mode post).2.updated ∧
    (uploadTasks index mode (pre ++ (task, true) :: post)).1 =
      (uploadTasks index mode pre).1 ++ (processTask index mode task true).1 ++
        (uploadTasks index mode post).1 := by
  have hpt : (processTask index mode task true).2 = ⟨0, 0, 1⟩ := by
    rcases hcall with ⟨hex, hm⟩ | ⟨hex, hm⟩ <;>
      rcases hm with hm | hm <;> subst hm <;> simp [processTask, hex]
  have hcons : uploadTasks index mode ((task, true) :: post) =
      ((processTask index mode task true).1 ++ (uploadTasks index mode post).1,
        Counters.add (processTask index mode task true).2
          (uploadTasks index mode post).2) := by
    simp [uploadTasks]
  have hsplit := uploadTasks_append index mode pre ((task, true) :: post)
  rw [hcons] at hsplit
  refine ⟨hpt, ?_, ?_, ?_, ?_⟩
  · rw [hsplit]
    simp only [Counters.add, hpt]
    omega
  · rw [hsplit]
    simp only [Counters.add, hpt]
    omega
  · rw [hsplit]
    simp only [Counters.add, hpt]
    omega
  · rw [hsplit]
    simp [List.append_assoc]

/-- C6 witness: a failing update for "Setup DB" between two successful
creates yields one error, keeps the neighbours' counts, and slots its
(failed) call between theirs. -/
theorem transport_error_isolated_witness :
    (processTask [("Setup DB", "page_1")] "both" [("Category", "Setup DB")] true).2 =
      ⟨0, 0, 1⟩ ∧
    (uploadTasks [("Setup DB", "page_1")] "both"
        ([([("Category", "A")], false)] ++ ([("Category", "Setup DB")], true) ::
          [([("Category", "B")], false)])).2.errors =
      (uploadTasks [("Setup DB", "page_1")] "both"
        [([("Category", "A")], false)]).2.errors + 1 +
      (uploadTasks [("Setup DB", "page_1")] "both"
        [([("Category", "B")], false)]).2.errors ∧
    (uploadTasks [("Setup DB", "page_1")] "both"
        ([([("Category", "A")], false)] ++ ([("Category", "Setup DB")], true) ::
          [([("Category", "B")], false)])).2.created =
      (uploadTasks [("Setup DB", "page_1")] "both"
        [([("Category", "A")], false)]).2.created +
      (uploadTasks [("Setup DB", "page_1")] "both"
        [([("Category", "B")], false)]).2.created ∧
    (uploadTasks [("Setup DB", "page_1")] "both"
        ([([("Category", "A")], false)] ++ ([("Category", "Setup DB")], true) ::
          [([("Category", "B")], false)])).2.updated =
      (uploadTasks [("Setup DB", "page_1")] "both"
        [([("Category", "A")], false)]).2.updated +
      (uploadTasks [("Setup DB", "page_1")] "both"
        [([("Category", "B")], false)]).2.updated ∧
    (uploadTasks [("Setup DB", "page_1")] "both"
        ([([("Category", "A")], false)] ++ ([("Category", "Setup DB")], true) ::
          [([("Category", "B")], false)])).1 =
      (uploadTasks [("Setup DB", "page_1")] "both"
        [([("Category", "A")], false)]).1 ++
      (processTask [("Setup DB", "page_1")] "both" [("Category", "Setup DB")] true).1 ++
      (uploadTasks [("Setup DB", "page_1")] "both"
        [([("Category", "B")], false)]).1 :=
  transport_error_isolated [("Setup DB", "page_1")] "both"
    [([("Category", "A")], false)] [([("Category", "B")], false)]
    [("Category", "Setup DB")] (Or.inl ⟨by decide, Or.inr rfl⟩)

/-- C8: equal Category values are detected through the running set and
warned about but both occurrences are kept in order; and since the
index is never refreshed, a duplicated Category absent from the
initial index triggers a second create call rather than an update. -/
theorem duplicates_kept_and_recreated (row1 row2 : List (String × String))
    (c : String) (hc : c ≠ "")
    (h1 : dictGet? (normalizeRow row1) "Category" = some c)
    (h2 : dictGet? (normalizeRow row2) "Category" = some c)
    (index : List (String × String)) (hidx : dictHas index c = false)
    (t1 t2 : List (String × String))
    (ht1 : dictGet? t1 "Category" = some c)
    (ht2 : dictGet? t2 "Category" = some c) :
    collectRows [row1, row2] =
      ⟨[normalizeRow row1, normalizeRow row2], [c], [c]⟩ ∧
    uploadTasks index "both" [(t1, false), (t2, false)] =
      ([SyncEvent.createCall (some c), SyncEvent.createCall (some c)],
        ⟨2, 0, 0⟩) := by
  constructor
  · simp [collectRows, collectRow, h1, h2, hc]
  · have hex1 : taskExisting index t1 = false := by
      simp [taskExisting, ht1, hidx]
    have hex2 : taskExisting index t2 = false := by
      simp [taskExisting, ht2, hidx]
    simp [uploadTasks, processTask, hex1, hex2, ht1, ht2, Counters.add]

/-- C8 witness: "Setup DB" appearing in two rows is warned about once,
kept twice, and (absent from the index) created twice in mode "both". -/
theorem duplicates_kept_and_recreated_witness :
    collectRows [[("Task Name", "Setup DB")], [("Task Name", "Setup DB")]] =
      ⟨[normalizeRow [("Task Name", "Setup DB")],
        normalizeRow [("Task Name", "Setup DB")]],
        ["Setup DB"], ["Setup DB"]⟩ ∧
    uploadTasks [("Other", "p0")] "both"
        [([("Category", "Setup DB")], false), ([("Category", "Setup DB")], false)] =
      ([SyncEvent.createCall (some "Setup DB"),
        SyncEvent.createCall (some "Setup DB")], ⟨2, 0, 0⟩) :=
  duplicates_kept_and_recreated [("Task Name", "Setup DB")]
    [("Task Name", "Setup DB")] "Setup DB" (by decide) (by decide) (by decide)
    [("Other", "p0")] (by decide) [("Category", "Setup DB")]
    [("Category", "Setup DB")] (by decide) (by decide)

/-- C4: index building requests pages passing each response's cursor
to the next request until a response's has_more is false, and the
resulting index is the fold of the registration over all returned
records; a record whose title has a non-empty first segment is
registered under it, and a record without such a segment changes
nothing. -/
theorem pagination_accumulates (rs : List QueryResponse) (last : QueryResponse)
    (hrs : ∀ r ∈ rs, r.has_more = true) (hlast : last.has_more = false) :
    fetchExistingTasks (rs ++ [last]) =
      (((rs ++ [last]).flatMap (fun r => r.results)).foldl registerPage [],
        none :: rs.map (fun r => effectiveCursor r.next_cursor)) ∧
    (∀ idx p c rest, p.categoryTitle = c :: rest → c ≠ "" →
      dictGet? (registerPage idx p) c = some p.id) ∧
    (∀ idx p, p.categoryTitle = [] → registerPage idx p = idx) ∧
    (∀ idx p rest, p.categoryTitle = "" :: rest → registerPage idx p = idx) := by
  refine ⟨?_, ?_, ?_, ?_⟩
  · rw [fetchExistingTasks, fetchGo_spec last hlast rs hrs]
    rfl
  · intro idx p c rest hp hcne
    simp [registerPage, hp, hcne]
  · intro idx p hp
    simp [registerPage, hp]
  · intro idx p rest hp
    simp [registerPage, hp]

/-- C4 witness: two pages (the first with has_more and a cursor) are
both consumed, the second request carries the first response's cursor,
and the three kinds of records register or are skipped as stated. -/
theorem pagination_accumulates_witness :
    fetchExistingTasks
        [⟨[⟨"id1", ["Setup DB"]⟩], true, some "cur1"⟩,
         ⟨[⟨"id2", ["Task B"]⟩, ⟨"id3", []⟩, ⟨"id4", ["", "x"]⟩], false, none⟩] =
      ((([(⟨[⟨"id1", ["Setup DB"]⟩], true, some "cur1"⟩ : QueryResponse),
          ⟨[⟨"id2", ["Task B"]⟩, ⟨"id3", []⟩, ⟨"id4", ["", "x"]⟩], false,
            none⟩]).flatMap (fun r => r.results)).foldl registerPage [],
        [none, some "cur1"]) ∧
    dictGet? (registerPage [] ⟨"id1", ["Setup DB"]⟩) "Setup DB" = some "id1" ∧
    registerPage [] ⟨"id3", []⟩ = [] ∧
    registerPage [] ⟨"id4", ["", "x"]⟩ = [] := by
  have h := pagination_accumulates
    [⟨[⟨"id1", ["Setup DB"]⟩], true, some "cur1"⟩]
    ⟨[⟨"id2", ["Task B"]⟩, ⟨"id3", []⟩, ⟨"id4", ["", "x"]⟩], false, none⟩
    (by decide) (by decide)
  exact ⟨h.1, h.2.1 [] ⟨"id1", ["Setup DB"]⟩ "Setup DB" [] rfl (by decide),
    h.2.2.1 [] ⟨"id3", []⟩ rfl, h.2.2.2 [] ⟨"id4", ["", "x"]⟩ ["x"] rfl⟩

end NotionUploader
